import Mathlib

/-
Verification of the Money Lens client-side core: the analytics fetch
coordinator, the upload and reset workflow controllers, the conversational
session controller, and the transaction query engine.  Each definition below
is a shallow embedding of the corresponding TypeScript in
src/frontend/src/App.tsx, src/frontend/src/components/Charts.tsx
(TransactionTable) and src/frontend/src/components/SummaryCards.tsx
(ChatInterface).  JavaScript truthiness on the values these functions branch
on is modelled explicitly: a string is truthy iff nonempty, a number is
truthy iff nonzero, an absent optional field is falsy.
-/

namespace MoneyLens

/-- One transaction row, as in the Transaction interfaces of App.tsx and
Charts.tsx: date, description, amount, type ("credit"/"debit" as data, the
code compares it as a plain string), optional category and currency. -/
structure Transaction where
  date : String
  description : String
  amount : Int
  type : String
  category : Option String
  currency : Option String
deriving DecidableEq

/-- The summary metrics object (App.tsx summary state). -/
structure Summary where
  total_income : Int
  total_expense : Int
  net_balance : Int
  transaction_count : Nat
deriving DecidableEq

/-- One point of the monthly trends map. -/
structure TrendPoint where
  income : Int
  expense : Int
deriving DecidableEq

/-- One merchant-ranking entry. -/
structure Merchant where
  name : String
  value : Int
deriving DecidableEq

/-- Chat message roles (Message interface in App.tsx). -/
inductive Role where
  | user
  | bot
deriving DecidableEq

/-- A chat message. -/
structure Message where
  role : Role
  content : String
deriving DecidableEq

/-- The data slices App.tsx keeps in React state, plus the error and the
loading/uploading flags the workflows toggle.  The spending and trends maps
are carried as association lists (the code never looks keys up, it replaces
the object wholesale). -/
structure AppState where
  transactions : List Transaction
  messages : List Message
  currency : String
  summary : Summary
  spending : List (String × Int)
  trends : List (String × TrendPoint)
  merchants : List Merchant
  error : Option String
  isLoadingData : Bool
  isUploading : Bool
deriving DecidableEq

/-! ### Transaction Query Engine (TransactionTable in Charts.tsx) -/

/-- Character data of a string after JavaScript toLowerCase, on the ASCII
range the model covers. -/
def lowerData (s : String) : List Char :=
  s.data.map Char.toLower

/-- JavaScript `hay.includes(needle)`: the needle is a contiguous substring
of the haystack. -/
def jsIncludes (hay needle : String) : Bool :=
  decide (needle.data <:+: hay.data)

/-- The search predicate of filteredTransactions (Charts.tsx lines 264-265):
the lowercased description, or the lowercased category (empty string when
the category is absent), contains the lowercased search text. -/
def matchesSearch (t : Transaction) (search : String) : Bool :=
  jsIncludes (String.mk (lowerData t.description)) (String.mk (lowerData search)) ||
    jsIncludes
      (match t.category with
        | some c => String.mk (lowerData c)
        | none => "")
      (String.mk (lowerData search))

/-- The active type filter of the table: all, credit or debit. -/
inductive FilterType where
  | all
  | credit
  | debit
deriving DecidableEq

/-- The string value the select buttons store for each filter, compared
against the transaction's type with `===`. -/
def FilterType.str : FilterType → String
  | .all => "all"
  | .credit => "credit"
  | .debit => "debit"

/-- The type predicate of filteredTransactions (Charts.tsx line 266):
`filterType === 'all' || t.type === filterType`. -/
def matchesType (t : Transaction) (f : FilterType) : Bool :=
  decide (f = FilterType.all) || decide (t.type = f.str)

/-- The filter stage of filteredTransactions (Charts.tsx lines 263-268);
the sort stage that follows it consumes this list. -/
def filterTransactions (ts : List Transaction) (search : String)
    (f : FilterType) : List Transaction :=
  ts.filter (fun t => matchesSearch t search && matchesType t f)

/-- JavaScript numeric truthiness of an optional prop (`if (limit)`,
`if (pageSize)`): present and nonzero. -/
def truthyNat : Option Nat → Bool
  | some n => decide (n ≠ 0)
  | none => false

/-- paginatedTransactions (Charts.tsx lines 280-289): a truthy limit takes
the first `limit` rows; otherwise a truthy pageSize takes the slice
`[(page-1)*pageSize, page*pageSize)`; otherwise the whole filtered list. -/
def paginatedTransactions (limit pageSize : Option Nat) (page : Nat)
    (filtered : List Transaction) : List Transaction :=
  if truthyNat limit then filtered.take (limit.getD 0)
  else if truthyNat pageSize then
    (filtered.drop ((page - 1) * pageSize.getD 0)).take (pageSize.getD 0)
  else filtered

/-- totalPages (Charts.tsx line 291): `Math.ceil(length / pageSize)` when a
pageSize is truthy, 1 otherwise.  On naturals the ceiling is
`(length + pageSize - 1) / pageSize`. -/
def totalPages (pageSize : Option Nat) (filteredLen : Nat) : Nat :=
  if truthyNat pageSize then
    (filteredLen + pageSize.getD 0 - 1) / pageSize.getD 0
  else 1

/-- handleNextPage (Charts.tsx lines 293-295). -/
def handleNextPage (page total : Nat) : Nat :=
  if page < total then page + 1 else page

/-- handlePrevPage (Charts.tsx lines 297-299). -/
def handlePrevPage (page : Nat) : Nat :=
  if 1 < page then page - 1 else page

/-! ### Analytics Fetch Coordinator (fetchData in App.tsx, lines 60-87) -/

/-- Outcome of one fetch: the promise rejected (transport failure), or it
resolved with `ok = false` (non-2xx, carrying the status), or it resolved
ok with a decoded body. -/
inductive FetchResult (α : Type) where
  | netErr
  | httpErr (status : Nat)
  | ok (value : α)
deriving DecidableEq

/-- Did the promise reject?  `Promise.all` rejects exactly when one of its
members does. -/
def FetchResult.isNetErr : FetchResult α → Bool
  | .netErr => true
  | _ => false

/-- The value of a successful response, or a default for a failed one. -/
def FetchResult.valueOr (r : FetchResult α) (d : α) : α :=
  match r with
  | .ok v => v
  | _ => d

/-- Applying the transaction-list response (App.tsx lines 75-81): replace the
list, then overwrite the currency from the first element when the list is
non-empty and its currency tag is truthy (present and nonempty). -/
def applyTransactionsSlice (s : AppState) (ts : List Transaction) : AppState :=
  let s1 := { s with transactions := ts }
  match ts with
  | [] => s1
  | t :: _ =>
    match t.currency with
    | some c => if c ≠ "" then { s1 with currency := c } else s1
    | none => s1

/-- fetchData (App.tsx lines 60-87).  The five requests are joined by
`Promise.all`, so a single rejected fetch rejects the join: control moves to
the catch block and no slice is applied.  When the join resolves, each
response with `ok` true is applied to its own slice in order, the
transaction slice also driving the currency; `ok` false responses are
skipped.  The loading flag is set on entry and cleared in the finally
block on every path, and nothing is thrown to the caller. -/
def fetchData (s : AppState)
    (summRes : FetchResult Summary)
    (spendRes : FetchResult (List (String × Int)))
    (trendRes : FetchResult (List (String × TrendPoint)))
    (merchRes : FetchResult (List Merchant))
    (transRes : FetchResult (List Transaction)) : AppState :=
  let s0 := { s with isLoadingData := true }
  let s5 :=
    if summRes.isNetErr || spendRes.isNetErr || trendRes.isNetErr ||
        merchRes.isNetErr || transRes.isNetErr then
      s0
    else
      let s1 := match summRes with
        | .ok v => { s0 with summary := v }
        | _ => s0
      let s2 := match spendRes with
        | .ok v => { s1 with spending := v }
        | _ => s1
      let s3 := match trendRes with
        | .ok v => { s2 with trends := v }
        | _ => s2
      let s4 := match merchRes with
        | .ok v => { s3 with merchants := v }
        | _ => s3
      match transRes with
      | .ok ts => applyTransactionsSlice s4 ts
      | _ => s4
  { s5 with isLoadingData := false }

/-! ### Reset Workflow Controller (handleRefresh in App.tsx, lines 93-116) -/

/-- Outcome of the reset request: rejection (with the rejection error's
message), a non-2xx response, or a 2xx response carrying the server's
empty-summary body. -/
inductive ResetResult where
  | netErr (msg : String)
  | httpErr
  | ok (emptySummary : Summary)
deriving DecidableEq

/-- Is the reset outcome a failure? -/
def ResetResult.isFailure : ResetResult → Bool
  | .ok _ => false
  | _ => true

/-- The message of the error handleRefresh catches: a non-2xx response makes
it throw `Error('Failed to reset dashboard data')`, a rejected fetch
carries its own message. -/
def resetFailureMessage : ResetResult → Option String
  | .netErr m => some m
  | .httpErr => some "Failed to reset dashboard data"
  | .ok _ => none

/-- handleRefresh (App.tsx lines 93-116): loading on, error cleared; on a
2xx response the summary becomes the server's body and transactions,
messages, spending and trends are cleared locally with currency reset to
"USD" (merchants are left as they were); on any failure only the error is
set, from the caught error's message; loading is cleared in finally. -/
def handleRefresh (s : AppState) (r : ResetResult) : AppState :=
  let s0 := { s with isLoadingData := true, error := none }
  let s1 := match r with
    | .ok emptySummary =>
      { s0 with summary := emptySummary, transactions := [], messages := [],
                spending := [], trends := [], currency := "USD" }
    | .httpErr => { s0 with error := some "Failed to reset dashboard data" }
    | .netErr m => { s0 with error := some m }
  { s1 with isLoadingData := false }

/-! ### Upload Workflow Controller (handleFileUpload in App.tsx, lines 118-163) -/

/-- The decoded body of a non-2xx upload response: optional `detail` and
`message` text fields. -/
structure ErrBody where
  detail : Option String
  message : Option String
deriving DecidableEq

/-- JavaScript string truthiness of an optional field: present and
nonempty. -/
def truthyStr : Option String → Bool
  | some c => decide (c ≠ "")
  | none => false

/-- The message handleFileUpload throws for a non-2xx response (App.tsx
line 135): `errData.detail || "Upload failed"`.  The body's `message`
field is never consulted. -/
def uploadErrorMessage (eb : ErrBody) : String :=
  match eb.detail with
  | some d => if d ≠ "" then d else "Upload failed"
  | none => "Upload failed"

/-- The metadata object of the structured upload response shape. -/
structure UploadMeta where
  currency : Option String
deriving DecidableEq

/-- The two accepted shapes of a 2xx upload body (App.tsx lines 140-149):
an object carrying a `transactions` field (with optional metadata), or a
bare array of transactions. -/
inductive UploadBody where
  | structured (ts : List Transaction) (metadata : Option UploadMeta)
  | bare (ts : List Transaction)
deriving DecidableEq

/-- Outcome of the upload request. -/
inductive UploadResult where
  | netErr (msg : String)
  | httpErr (errBody : ErrBody)
  | ok (body : UploadBody)
deriving DecidableEq

/-- Applying a 2xx upload body (App.tsx lines 141-149): a body with a
`transactions` field replaces the list and, when `metadata.currency` is
truthy, the currency; a bare array only replaces the list. -/
def applyUploadBody (s : AppState) (body : UploadBody) : AppState :=
  match body with
  | .structured ts meta =>
    let s1 := { s with transactions := ts }
    match meta with
    | some m =>
      match m.currency with
      | some c => if c ≠ "" then { s1 with currency := c } else s1
      | none => s1
    | none => s1
  | .bare ts => { s with transactions := ts }

/-- handleFileUpload after the file guard (App.tsx lines 118-163): the
uploading flag goes on and the error is cleared; a non-2xx response throws
the extracted message and a rejected fetch its own, either landing in the
catch block which records the message as the error without touching any
data slice; a 2xx body is applied by shape and then fetchData runs on the
five refresh responses; the uploading flag is cleared in finally. -/
def handleFileUpload (s : AppState) (r : UploadResult)
    (summRes : FetchResult Summary)
    (spendRes : FetchResult (List (String × Int)))
    (trendRes : FetchResult (List (String × TrendPoint)))
    (merchRes : FetchResult (List Merchant))
    (transRes : FetchResult (List Transaction)) : AppState :=
  let s0 := { s with isUploading := true, error := none }
  let s1 := match r with
    | .ok body =>
      fetchData (applyUploadBody s0 body) summRes spendRes trendRes merchRes transRes
    | .httpErr eb => { s0 with error := some (uploadErrorMessage eb) }
    | .netErr m => { s0 with error := some m }
  { s1 with isUploading := false }

/-! ### Conversational Session Controller (sendMessage in SummaryCards.tsx,
ChatInterface, lines 121-149) -/

/-- Outcome of one chat request: rejection, non-2xx (the code throws on
`!response.ok`), or a 2xx body carrying the response text. -/
inductive ChatResult where
  | netErr
  | httpErr
  | ok (response : String)
deriving DecidableEq

/-- Did the chat turn fail (rejection or non-2xx)? -/
def ChatResult.isFailure : ChatResult → Bool
  | .ok _ => false
  | _ => true

/-- The local state sendMessage reads and writes: the shared message
history, the input box, and the in-flight guard flag. -/
structure ChatState where
  messages : List Message
  input : String
  isLoading : Bool
deriving DecidableEq

/-- JavaScript `input.trim()`: leading and trailing whitespace stripped. -/
def jsTrim (s : String) : String :=
  String.mk (((s.data.dropWhile Char.isWhitespace).reverse.dropWhile
    Char.isWhitespace).reverse)

/-- The fixed fallback text appended when a chat turn fails
(SummaryCards.tsx line 145). -/
def chatFallbackText : String :=
  "I'm sorry, I'm having trouble connecting to the financial agent right now."

/-- sendMessage (SummaryCards.tsx lines 121-149): a whitespace-only input or
an in-flight turn is a no-op; otherwise the trimmed input is appended as a
user message before the request, and exactly one bot message follows it —
the server's response text on success, the fixed fallback on rejection or
non-2xx — with the loading flag cleared in finally. -/
def sendMessage (st : ChatState) (r : ChatResult) : ChatState :=
  if jsTrim st.input = "" || st.isLoading then st
  else
    let userMessage := jsTrim st.input
    let st0 := { st with input := "",
                         messages := st.messages ++ [Message.mk Role.user userMessage],
                         isLoading := true }
    let st1 := match r with
      | .ok resp => { st0 with messages := st0.messages ++ [Message.mk Role.bot resp] }
      | _ => { st0 with messages := st0.messages ++ [Message.mk Role.bot chatFallbackText] }
    { st1 with isLoading := false }

/-! ### Request URLs and base-URL configuration -/

/-- The startup guard of App.tsx lines 13-16: with no (or an empty, hence
falsy) VITE_API_BASE the module throws before anything runs; otherwise
API_BASE is the configured base followed by the versioned segment. -/
def initApiBase : Option String → Except String String
  | none => Except.error "VITE_API_BASE is not defined in environment variables"
  | some b =>
    if b = "" then Except.error "VITE_API_BASE is not defined in environment variables"
    else Except.ok (b ++ "/api/v1")

/-- `${VITE_API_BASE}/api/v1` (App.tsx line 16). -/
def apiBase (base : String) : String := base ++ "/api/v1"

/-- The URLs fetchData, handleRefresh, handleFileUpload and the SnapshotCard
request (App.tsx lines 64-68, 97, 128, 359), in that order: the five
analytics views, reset, upload and the snapshot chat. -/
def appRequestUrls (base : String) : List String :=
  [ apiBase base ++ "/analytics/summary",
    apiBase base ++ "/analytics/spending",
    apiBase base ++ "/analytics/trends",
    apiBase base ++ "/analytics/merchants",
    apiBase base ++ "/analytics/transactions",
    apiBase base ++ "/analytics/reset",
    apiBase base ++ "/upload",
    apiBase base ++ "/chat" ]

/-- The URL the interactive chat turn requests (SummaryCards.tsx line 130):
a hardcoded absolute address, not built from API_BASE. -/
def chatTurnUrl : String := "http://localhost:8000/api/v1/chat/"

/-- Every URL the core requests: the App.tsx ones plus the interactive chat
turn's. -/
def coreRequestUrls (base : String) : List String :=
  appRequestUrls base ++ [chatTurnUrl]

/-- Does a URL start with the configured base plus the versioned segment? -/
def usesBase (base url : String) : Bool :=
  decide ((apiBase base).data <+: url.data)

/-! ### Derived notions and concrete data used by the theorems -/

/-- Did any of the five analytics fetches reject?  This is the condition
under which the `Promise.all` of fetchData rejects. -/
def anyNetErr {α β γ δ ε : Type} (a : FetchResult α) (b : FetchResult β)
    (c : FetchResult γ) (d : FetchResult δ) (e : FetchResult ε) : Bool :=
  a.isNetErr || b.isNetErr || c.isNetErr || d.isNetErr || e.isNetErr

/-- The currency after the transaction slice is applied: the first
element's tag when the list is non-empty and the tag is truthy, the prior
currency otherwise. -/
def firstCurrency (prev : String) (ts : List Transaction) : String :=
  match ts with
  | [] => prev
  | t :: _ =>
    match t.currency with
    | some c => if c ≠ "" then c else prev
    | none => prev

/-- The currency the upload success body carries, when truthy. -/
def uploadMetaCurrency : UploadResult → Option String
  | .ok (.structured _ (some m)) =>
    match m.currency with
    | some c => if c ≠ "" then some c else none
    | _ => none
  | _ => none

/-- The currency tag of the first element of a successfully fetched
transaction list, when truthy. -/
def firstFetchedCurrency : FetchResult (List Transaction) → Option String
  | .ok (t :: _) =>
    match t.currency with
    | some c => if c ≠ "" then some c else none
    | _ => none
  | _ => none

/-- An all-zero summary, standing for a server reset response body. -/
def zeroSummary : Summary :=
  { total_income := 0, total_expense := 0, net_balance := 0,
    transaction_count := 0 }

/-- A non-zero summary, standing for a populated summary response body. -/
def richSummary : Summary :=
  { total_income := 900, total_expense := 400, net_balance := 500,
    transaction_count := 7 }

/-- A concrete baseline state for the closed counterexamples and
witnesses. -/
def baseState : AppState :=
  { transactions := [], messages := [], currency := "USD",
    summary := zeroSummary, spending := [], trends := [], merchants := [],
    error := none, isLoadingData := false, isUploading := false }

/-- The baseline state displaying euros. -/
def eurState : AppState := { baseState with currency := "EUR" }

/-- A concrete chat state with an empty history, a typed message and no
turn in flight. -/
def chatStart : ChatState :=
  { messages := [], input := "What did I spend?", isLoading := false }

/-- One concrete transaction row, distinct per index. -/
def pageTx (i : Nat) : Transaction :=
  { date := "2024-01-01", description := "row", amount := Int.ofNat i,
    type := "debit", category := none, currency := none }

/-- 37 distinct transactions for the pagination example. -/
def thirtySeven : List Transaction := (List.range 37).map pageTx

/-! ### Theorems: Transaction Query Engine -/

/-- C4: the filter returns exactly the transactions of L whose description
or category contains the search text as a case-insensitive substring and
whose type matches the active filter (`all` matching everything); the result
is a sublist (hence subset) of L, and filtering it again with the same
search text and filter gives it back unchanged. -/
theorem C4_filter_query (L : List Transaction) (s : String) (f : FilterType) :
    (∀ t, t ∈ filterTransactions L s f ↔
        t ∈ L ∧ matchesSearch t s = true ∧ matchesType t f = true)
    ∧ (filterTransactions L s f).Sublist L
    ∧ filterTransactions (filterTransactions L s f) s f = filterTransactions L s f
    ∧ (∀ t, matchesSearch t s = true ↔
        lowerData s <:+: lowerData t.description
          ∨ lowerData s <:+: (match t.category with
              | some c => lowerData c
              | none => []))
    ∧ (∀ t, matchesType t f = true ↔ (f = FilterType.all ∨ t.type = f.str)) := by
  refine ⟨?_, ?_, ?_, ?_, ?_⟩
  · intro t
    simp [filterTransactions, List.mem_filter, Bool.and_eq_true, and_assoc]
  · exact List.filter_sublist L
  · unfold filterTransactions
    rw [List.filter_filter]
    simp
  · intro t
    cases htc : t.category with
    | none => simp [matchesSearch, jsIncludes, htc]
    | some c => simp [matchesSearch, jsIncludes, htc]
  · intro t
    simp [matchesType]

/-- C5: with a pageSize and no limit, the page-p view is the slice
`[(p-1)*pageSize, p*pageSize)` of the filtered+sorted list; the total page
count is the ceiling of count/pageSize (the least k covering the list); and
navigation is clamped at both ends. -/
theorem C5_pagination (l : List Transaction) (ps p : Nat) (hp : 0 < ps) :
    paginatedTransactions none (some ps) p l = (l.drop ((p - 1) * ps)).take ps
    ∧ totalPages (some ps) l.length = (l.length + ps - 1) / ps
    ∧ l.length ≤ totalPages (some ps) l.length * ps
    ∧ (∀ k, l.length ≤ k * ps → totalPages (some ps) l.length ≤ k)
    ∧ handleNextPage (totalPages (some ps) l.length) (totalPages (some ps) l.length)
        = totalPages (some ps) l.length
    ∧ handlePrevPage 1 = 1 := by
  have hne : ps ≠ 0 := hp.ne'
  have htot : totalPages (some ps) l.length = (l.length + ps - 1) / ps := by
    simp [totalPages, truthyNat, hne]
  refine ⟨?_, htot, ?_, ?_, ?_, ?_⟩
  · simp [paginatedTransactions, truthyNat, hne]
  · rw [htot]
    cases hl : l.length with
    | zero => simp
    | succ m =>
      have hrw : m + 1 + ps - 1 = m + ps := by omega
      rw [hrw, Nat.add_div_right m hp]
      have hdm := Nat.div_add_mod m ps
      have hml : m % ps < ps := Nat.mod_lt _ hp
      calc m + 1 = ps * (m / ps) + (m % ps + 1) := by omega
        _ ≤ ps * (m / ps) + ps := by omega
        _ = (m / ps + 1) * ps := by ring
  · intro k hk
    rw [htot]
    cases hl : l.length with
    | zero =>
      have : ps - 1 < ps := by omega
      simp [Nat.div_eq_of_lt this]
    | succ m =>
      have hrw : m + 1 + ps - 1 = m + ps := by omega
      rw [hrw, Nat.add_div_right m hp]
      have hmk : m < k * ps := by omega
      have := (Nat.div_lt_iff_lt_mul hp).mpr hmk
      omega
  · simp [handleNextPage]
  · simp [handlePrevPage]

/-- C5 witness: the theorem at the 37-row list with pageSize 25 on page 2:
page 2 is the slice from index 25, the page count is the ceiling of 37/25,
and "next" at the last page is a no-op. -/
theorem C5_pagination_witness :
    paginatedTransactions none (some 25) 2 thirtySeven
        = (thirtySeven.drop ((2 - 1) * 25)).take 25
    ∧ totalPages (some 25) thirtySeven.length = (thirtySeven.length + 25 - 1) / 25
    ∧ thirtySeven.length ≤ totalPages (some 25) thirtySeven.length * 25
    ∧ (∀ k, thirtySeven.length ≤ k * 25 → totalPages (some 25) thirtySeven.length ≤ k)
    ∧ handleNextPage (totalPages (some 25) thirtySeven.length)
        (totalPages (some 25) thirtySeven.length)
        = totalPages (some 25) thirtySeven.length
    ∧ handlePrevPage 1 = 1 :=
  C5_pagination thirtySeven 25 2 (by decide)

/-- C10: when a table gets both a nonzero limit and a pageSize, the limit
branch wins: the view is the first min(limit, n) rows of the filtered+sorted
list, identical for every page, and the page-navigation handlers leave it
unchanged. -/
theorem C10_limit_precedence (l : List Transaction) (lim ps p q : Nat)
    (hl : 0 < lim) :
    paginatedTransactions (some lim) (some ps) p l = l.take lim
    ∧ (l.take lim).length = min lim l.length
    ∧ paginatedTransactions (some lim) (some ps) p l
        = paginatedTransactions (some lim) (some ps) q l
    ∧ paginatedTransactions (some lim) (some ps)
        (handleNextPage p (totalPages (some ps) l.length)) l
        = paginatedTransactions (some lim) (some ps) p l
    ∧ paginatedTransactions (some lim) (some ps) (handlePrevPage p) l
        = paginatedTransactions (some lim) (some ps) p l := by
  have hne : lim ≠ 0 := hl.ne'
  simp [paginatedTransactions, truthyNat, hne, List.length_take]

/-- C10 witness: the theorem at the 37-row list with limit 10, pageSize 25,
pages 2 and 1. -/
theorem C10_limit_precedence_witness :
    paginatedTransactions (some 10) (some 25) 2 thirtySeven = thirtySeven.take 10
    ∧ (thirtySeven.take 10).length = min 10 thirtySeven.length
    ∧ paginatedTransactions (some 10) (some 25) 2 thirtySeven
        = paginatedTransactions (some 10) (some 25) 1 thirtySeven
    ∧ paginatedTransactions (some 10) (some 25)
        (handleNextPage 2 (totalPages (some 25) thirtySeven.length)) thirtySeven
        = paginatedTransactions (some 10) (some 25) 2 thirtySeven
    ∧ paginatedTransactions (some 10) (some 25) (handlePrevPage 2) thirtySeven
        = paginatedTransactions (some 10) (some 25) 2 thirtySeven :=
  C10_limit_precedence thirtySeven 10 25 2 1 (by decide)

/-! ### Theorems: Analytics Fetch Coordinator -/

/-- The transaction slice application in closed form: the list is replaced
and the currency follows the first element's truthy tag. -/
theorem applyTransactionsSlice_eq (s : AppState) (ts : List Transaction) :
    applyTransactionsSlice s ts
      = { s with transactions := ts,
                 currency := firstCurrency s.currency ts } := by
  cases ts with
  | nil => rfl
  | cons t rest =>
    cases htc : t.currency with
    | none => simp [applyTransactionsSlice, firstCurrency, htc]
    | some c =>
      by_cases hc : c = "" <;>
        simp [applyTransactionsSlice, firstCurrency, htc, hc]

/-- fetchData in closed form: a rejected member of the `Promise.all` means
no slice is applied; otherwise every slice takes its own successful value
and keeps its prior one on a non-2xx response, with the currency driven by
the transaction slice.  The loading flag ends false on both paths. -/
theorem fetchData_eq (s : AppState) (a : FetchResult Summary)
    (b : FetchResult (List (String × Int)))
    (c : FetchResult (List (String × TrendPoint)))
    (d : FetchResult (List Merchant))
    (e : FetchResult (List Transaction)) :
    fetchData s a b c d e =
      if anyNetErr a b c d e then { s with isLoadingData := false }
      else
        { s with summary := a.valueOr s.summary,
                 spending := b.valueOr s.spending,
                 trends := c.valueOr s.trends,
                 merchants := d.valueOr s.merchants,
                 transactions := e.valueOr s.transactions,
                 currency := match e with
                   | .ok ts => firstCurrency s.currency ts
                   | _ => s.currency,
                 isLoadingData := false } := by
  cases a <;> cases b <;> cases c <;> cases d <;> cases e <;>
    simp [fetchData, anyNetErr, FetchResult.isNetErr, FetchResult.valueOr,
      applyTransactionsSlice_eq]

/-- C1 counterexample: a transport failure of the merchants request alone
stops the successful summary response from being applied — the claim's
independence of slices under transport failure does not hold. -/
theorem C1_counterexample :
    (fetchData baseState (FetchResult.ok richSummary) (FetchResult.ok [])
        (FetchResult.ok []) FetchResult.netErr (FetchResult.ok [])).summary
      = baseState.summary
    ∧ baseState.summary ≠ richSummary := by
  constructor
  · rfl
  · decide

/-- C1 as amended: when no request suffers a transport failure, each of the
five responses is applied to its own slice independently — a successful
view updates from its own response and a non-2xx view keeps its prior
value, with no rollback of the others.  When any request suffers a
transport failure, the whole `Promise.all` join rejects and every slice
keeps its prior value.  On every path the loading flag ends false, the
error and message slices are untouched, and refresh returns normally. -/
theorem C1_refresh_isolation (s : AppState) (a : FetchResult Summary)
    (b : FetchResult (List (String × Int)))
    (c : FetchResult (List (String × TrendPoint)))
    (d : FetchResult (List Merchant))
    (e : FetchResult (List Transaction)) :
    (fetchData s a b c d e).summary
        = cond (anyNetErr a b c d e) s.summary (a.valueOr s.summary)
    ∧ (fetchData s a b c d e).spending
        = cond (anyNetErr a b c d e) s.spending (b.valueOr s.spending)
    ∧ (fetchData s a b c d e).trends
        = cond (anyNetErr a b c d e) s.trends (c.valueOr s.trends)
    ∧ (fetchData s a b c d e).merchants
        = cond (anyNetErr a b c d e) s.merchants (d.valueOr s.merchants)
    ∧ (fetchData s a b c d e).transactions
        = cond (anyNetErr a b c d e) s.transactions (e.valueOr s.transactions)
    ∧ (fetchData s a b c d e).messages = s.messages
    ∧ (fetchData s a b c d e).error = s.error
    ∧ (fetchData s a b c d e).isLoadingData = false := by
  rw [fetchData_eq]
  cases h : anyNetErr a b c d e <;> simp

/-! ### Theorems: Reset Workflow Controller -/

/-- C3: a successful reset keeps exactly the server's returned summary
object and locally clears transactions, messages, spending and trends,
resetting currency to "USD"; a failed reset (non-2xx or rejection) records
only the failure's message as the error and leaves every data slice —
transactions, messages, summary, spending, trends, currency — unchanged. -/
theorem C3_reset (s : AppState) (es : Summary) (m : String) :
    handleRefresh s (ResetResult.ok es)
      = { s with summary := es, transactions := [], messages := [],
                 spending := [], trends := [], currency := "USD",
                 error := none, isLoadingData := false }
    ∧ handleRefresh s ResetResult.httpErr
      = { s with error := some "Failed to reset dashboard data",
                 isLoadingData := false }
    ∧ handleRefresh s (ResetResult.netErr m)
      = { s with error := some m, isLoadingData := false } :=
  ⟨rfl, rfl, rfl⟩

/-! ### Theorems: Upload Workflow Controller -/

/-- C7 counterexample: a non-2xx upload body with no `detail` but a
`message` field surfaces the generic "Upload failed", not the body's
message — the claimed detail-then-message fallback chain is not what the
code does. -/
theorem C7_counterexample :
    (handleFileUpload baseState
        (UploadResult.httpErr { detail := none,
                                message := some "Disk quota exceeded" })
        (FetchResult.ok zeroSummary) (FetchResult.ok []) (FetchResult.ok [])
        (FetchResult.ok []) (FetchResult.ok [])).error
      = some "Upload failed"
    ∧ some "Upload failed" ≠ some "Disk quota exceeded" := by
  constructor
  · rfl
  · decide

/-- C7 as amended: on a non-2xx upload response the surfaced error is the
body's `detail` field when it is truthy and the generic "Upload failed"
otherwise — the body's `message` field is never consulted — and the
controller aborts, leaving every data slice unchanged with only the error
and the uploading flag written. -/
theorem C7_upload_error (s : AppState) (eb : ErrBody)
    (a : FetchResult Summary) (b : FetchResult (List (String × Int)))
    (c : FetchResult (List (String × TrendPoint)))
    (d : FetchResult (List Merchant))
    (e : FetchResult (List Transaction)) :
    handleFileUpload s (UploadResult.httpErr eb) a b c d e
      = { s with error := some (uploadErrorMessage eb),
                 isUploading := false }
    ∧ uploadErrorMessage eb
        = (match eb.detail with
            | some dt => if dt ≠ "" then dt else "Upload failed"
            | none => "Upload failed")
    ∧ (∀ msg, uploadErrorMessage { eb with message := msg }
        = uploadErrorMessage eb) :=
  ⟨rfl, rfl, fun _ => rfl⟩

/-- C2: a 2xx upload body with a `transactions` field replaces the list
with it and a truthy `metadata.currency` sets the currency; a bare-array
body replaces the list and leaves the currency as it was; and on either
shape the handler is exactly that application followed by fetchData over
the five analytics responses (the refresh), with the uploading flag
cleared at the end. -/
theorem C2_upload_success (s : AppState) (ts : List Transaction)
    (cu : String) (hcu : cu ≠ "")
    (a : FetchResult Summary) (b : FetchResult (List (String × Int)))
    (c : FetchResult (List (String × TrendPoint)))
    (d : FetchResult (List Merchant))
    (e : FetchResult (List Transaction)) :
    applyUploadBody s
        (UploadBody.structured ts (some (UploadMeta.mk (some cu))))
      = { s with transactions := ts, currency := cu }
    ∧ applyUploadBody s (UploadBody.bare ts) = { s with transactions := ts }
    ∧ (∀ body, handleFileUpload s (UploadResult.ok body) a b c d e
        = { fetchData
              (applyUploadBody
                { s with isUploading := true, error := none } body)
              a b c d e
            with isUploading := false }) := by
  refine ⟨?_, rfl, fun _ => rfl⟩
  simp [applyUploadBody, hcu]

/-- C2 witness: the theorem at the baseline state with two uploaded rows,
currency "EUR", and five concrete refresh responses. -/
theorem C2_upload_success_witness :
    applyUploadBody baseState
        (UploadBody.structured [pageTx 0, pageTx 1]
          (some (UploadMeta.mk (some "EUR"))))
      = { baseState with transactions := [pageTx 0, pageTx 1],
                         currency := "EUR" }
    ∧ applyUploadBody baseState (UploadBody.bare [pageTx 0, pageTx 1])
      = { baseState with transactions := [pageTx 0, pageTx 1] }
    ∧ (∀ body,
        handleFileUpload baseState (UploadResult.ok body)
            (FetchResult.ok richSummary) (FetchResult.ok [])
            (FetchResult.ok []) (FetchResult.ok []) (FetchResult.ok [])
          = { fetchData
                (applyUploadBody
                  { baseState with isUploading := true, error := none } body)
                (FetchResult.ok richSummary) (FetchResult.ok [])
                (FetchResult.ok []) (FetchResult.ok []) (FetchResult.ok [])
              with isUploading := false }) :=
  C2_upload_success baseState [pageTx 0, pageTx 1] "EUR" (by decide)
    (FetchResult.ok richSummary) (FetchResult.ok []) (FetchResult.ok [])
    (FetchResult.ok []) (FetchResult.ok [])

/-! ### Theorems: Conversational Session Controller -/

/-- C6: a chat turn whose request fails (rejection or non-2xx) ends with
the optimistically appended user message followed by exactly one bot
message carrying the fixed fallback text: the history grows by exactly two
and no user message is left without a reply, with the loading flag cleared. -/
theorem C6_chat_failure (st : ChatState) (r : ChatResult)
    (hin : jsTrim st.input ≠ "") (hld : st.isLoading = false)
    (hr : r.isFailure = true) :
    (sendMessage st r).messages
      = st.messages ++ [Message.mk Role.user (jsTrim st.input),
                        Message.mk Role.bot chatFallbackText]
    ∧ (sendMessage st r).messages.length = st.messages.length + 2
    ∧ (sendMessage st r).isLoading = false := by
  cases r with
  | ok resp => simp [ChatResult.isFailure] at hr
  | netErr => simp [sendMessage, hin, hld]
  | httpErr => simp [sendMessage, hin, hld]

/-- C6 witness: the theorem at a concrete state with one typed message and
a rejected request. -/
theorem C6_chat_failure_witness :
    (sendMessage chatStart ChatResult.netErr).messages
      = chatStart.messages
          ++ [Message.mk Role.user (jsTrim chatStart.input),
              Message.mk Role.bot chatFallbackText]
    ∧ (sendMessage chatStart ChatResult.netErr).messages.length
        = chatStart.messages.length + 2
    ∧ (sendMessage chatStart ChatResult.netErr).isLoading = false :=
  C6_chat_failure chatStart ChatResult.netErr (by decide) rfl rfl

/-! ### Theorems: request URLs and configuration -/

/-- C9 counterexample: with the base URL configured as
"https://example.com", not every request of the core targets a URL starting
with that base plus /api/v1 — the interactive chat turn requests a
hardcoded localhost address instead. -/
theorem C9_counterexample :
    (coreRequestUrls "https://example.com").all
        (fun u => usesBase "https://example.com" u) = false := by
  decide

/-- C9 as amended: a missing or empty base URL fails fast at startup;
with a configured base every request of App.tsx — the five analytics
fetches, reset, upload and the snapshot chat — targets the base followed
by /api/v1, while the interactive chat turn alone targets the fixed
"http://localhost:8000/api/v1/chat/" regardless of configuration. -/
theorem C9_urls (base : String) (hb : base ≠ "") :
    initApiBase none
      = Except.error "VITE_API_BASE is not defined in environment variables"
    ∧ initApiBase (some "")
      = Except.error "VITE_API_BASE is not defined in environment variables"
    ∧ initApiBase (some base) = Except.ok (apiBase base)
    ∧ (appRequestUrls base).all (fun u => usesBase base u) = true
    ∧ chatTurnUrl = "http://localhost:8000/api/v1/chat/" := by
  refine ⟨rfl, rfl, ?_, ?_, rfl⟩
  · simp [initApiBase, apiBase, hb]
  · simp [appRequestUrls, usesBase, String.data_append, List.prefix_append]

/-- C9 witness: the theorem at a concrete https base. -/
theorem C9_urls_witness :
    initApiBase none
      = Except.error "VITE_API_BASE is not defined in environment variables"
    ∧ initApiBase (some "")
      = Except.error "VITE_API_BASE is not defined in environment variables"
    ∧ initApiBase (some "https://api.example.org")
        = Except.ok (apiBase "https://api.example.org")
    ∧ (appRequestUrls "https://api.example.org").all
        (fun u => usesBase "https://api.example.org" u) = true
    ∧ chatTurnUrl = "http://localhost:8000/api/v1/chat/" :=
  C9_urls "https://api.example.org" (by decide)

/-! ### Theorems: currency provenance -/

/-- A refresh changes the currency only through the first element of a
successfully fetched transaction list whose tag is truthy. -/
theorem fetchData_currency (s : AppState) (a : FetchResult Summary)
    (b : FetchResult (List (String × Int)))
    (c : FetchResult (List (String × TrendPoint)))
    (d : FetchResult (List Merchant))
    (e : FetchResult (List Transaction)) :
    (fetchData s a b c d e).currency = s.currency
    ∨ ∃ cu, firstFetchedCurrency e = some cu
        ∧ (fetchData s a b c d e).currency = cu := by
  rw [fetchData_eq]
  cases h : anyNetErr a b c d e with
  | true => left; simp
  | false =>
    cases e with
    | netErr => left; simp
    | httpErr st => left; simp
    | ok ts =>
      cases ts with
      | nil => left; simp [firstCurrency]
      | cons t rest =>
        cases htc : t.currency with
        | none => left; simp [firstCurrency, htc]
        | some cu =>
          by_cases hcu : cu = ""
          · left; simp [firstCurrency, htc, hcu]
          · right
            exact ⟨cu, by simp [firstFetchedCurrency, htc, hcu],
              by simp [firstCurrency, htc, hcu]⟩

/-- Applying a 2xx upload body changes the currency only through a truthy
metadata currency. -/
theorem applyUploadBody_currency (s : AppState) (body : UploadBody) :
    (applyUploadBody s body).currency = s.currency
    ∨ ∃ cu, uploadMetaCurrency (UploadResult.ok body) = some cu
        ∧ (applyUploadBody s body).currency = cu := by
  cases body with
  | bare ts => left; rfl
  | structured ts meta =>
    cases meta with
    | none => left; rfl
    | some mt =>
      cases hmc : mt.currency with
      | none => left; simp [applyUploadBody, hmc]
      | some cu =>
        by_cases hcu : cu = ""
        · left; simp [applyUploadBody, hmc, hcu]
        · right
          exact ⟨cu, by simp [uploadMetaCurrency, hmc, hcu],
            by simp [applyUploadBody, hmc, hcu]⟩

/-- C8 counterexample: a successful reset overwrites the currency to "USD"
with no transaction list fetched at all — the currency does not always
retain its prior value when no first-element tag drives it. -/
theorem C8_counterexample :
    (handleRefresh eurState (ResetResult.ok zeroSummary)).currency = "USD"
    ∧ eurState.currency = "EUR"
    ∧ ("USD" : String) ≠ "EUR" := by
  refine ⟨rfl, rfl, by decide⟩

/-- C8 as amended: the refresh coordinator changes the currency only by
reading the truthy currency tag of the first element of a successfully
fetched transaction list; the upload controller changes it only through
that same rule of its refresh or through a truthy `metadata.currency` of
its success body; a successful reset unconditionally resets it to "USD"
while a failed reset leaves it; in every other case the currency retains
its prior value.  (The chat controller's state carries no currency at
all.) -/
theorem C8_currency_provenance (s : AppState) (a : FetchResult Summary)
    (b : FetchResult (List (String × Int)))
    (c : FetchResult (List (String × TrendPoint)))
    (d : FetchResult (List Merchant))
    (e : FetchResult (List Transaction))
    (u : UploadResult) (es : Summary) (m : String) :
    ((fetchData s a b c d e).currency = s.currency
      ∨ ∃ cu, firstFetchedCurrency e = some cu
          ∧ (fetchData s a b c d e).currency = cu)
    ∧ (handleRefresh s (ResetResult.ok es)).currency = "USD"
    ∧ (handleRefresh s ResetResult.httpErr).currency = s.currency
    ∧ (handleRefresh s (ResetResult.netErr m)).currency = s.currency
    ∧ ((handleFileUpload s u a b c d e).currency = s.currency
        ∨ (∃ cu, uploadMetaCurrency u = some cu
            ∧ (handleFileUpload s u a b c d e).currency = cu)
        ∨ (∃ cu, firstFetchedCurrency e = some cu
            ∧ (handleFileUpload s u a b c d e).currency = cu)) := by
  refine ⟨fetchData_currency s a b c d e, rfl, rfl, rfl, ?_⟩
  cases u with
  | netErr msg => left; rfl
  | httpErr eb => left; rfl
  | ok body =>
    have hcomp : (handleFileUpload s (UploadResult.ok body) a b c d e).currency
        = (fetchData
            (applyUploadBody { s with isUploading := true, error := none } body)
            a b c d e).currency := rfl
    rcases fetchData_currency
        (applyUploadBody { s with isUploading := true, error := none } body)
        a b c d e with hfd | ⟨cu, hff, hcur⟩
    · rcases applyUploadBody_currency
          { s with isUploading := true, error := none } body with
        hab | ⟨cu, hmc, habc⟩
      · left
        rw [hcomp, hfd, hab]
      · right; left
        exact ⟨cu, hmc, by rw [hcomp, hfd, habc]⟩
    · right; right
      exact ⟨cu, hff, by rw [hcomp, hcur]⟩

end MoneyLens
